import Mathlib

/-
Verification of the bugtracker Flask service (src/app.py) against its
natural-language specification.

The embedding models the program state as:
  * a list of Issue rows (the SQLite table),
  * the auto-increment id counter,
  * the upload directory contents as a list of relative paths
    (each path a list of segments, since the retrieval route uses the
    `path` URL converter and may address nested paths),
  * a counter supplying fresh uuid tokens for stored attachment names.

Name generation abstracts `uuid.uuid4().hex + "_" + secure_filename(name)`
as a parameter gen : Nat -> String -> String applied to a fresh token index;
nothing in the claims depends on the exact text of stored names.

Error responses model the fact that a handler returning early (before
`db.session.commit()`) leaves the persisted table unchanged: Flask-SQLAlchemy
discards the uncommitted session at request teardown, so in-memory `setattr`
mutations made before an early `return ... 400` are rolled back.
-/

namespace BugTracker

/-! ### Config constants (src/app.py lines 12-15) -/

def ALLOWED_TRACKS : List String := ["AP", "RP", "Common", "LI", "ES"]

def ALLOWED_STATUS : List String := ["Open", "Fixed", "Deployed", "Closed"]

def ALLOWED_EXTENSIONS : List String := ["png", "jpg", "jpeg", "gif", "webp", "bmp", "pdf"]

def MAX_ATTACHMENTS : Nat := 5

/-! ### Data model (src/app.py lines 27-38) -/

/-- One row of the Issue table. `created_at` is an abstract timestamp
(the code stores `datetime.utcnow` and serializes `isoformat() + "Z"`). -/
structure Issue where
  id : Nat
  track : String
  summary : String
  description : String
  attachments : List String
  raised_by : String
  assignee : String
  status : String
  scenario_id : String
  step_no : String
  created_at : Nat
  deriving DecidableEq

/-- Whole-system state: the Issue table, its auto-increment counter,
the upload directory contents (relative paths as segment lists), and
the counter feeding fresh uuid tokens to attachment-name generation. -/
structure AppState where
  issues : List Issue
  nextId : Nat
  store : List (List String)
  nextTok : Nat
  deriving DecidableEq

def initState : AppState := { issues := [], nextId := 1, store := [], nextTok := 0 }

/-- HTTP outcome of a mutating handler. -/
inductive Resp where
  | created (iss : Issue)
  | issueJson (iss : Issue)
  | deletedMsg
  | badRequest (msg : String)
  | notFound
  deriving DecidableEq

/-! ### String primitives.

Python's str.strip, str.split, str.lower and the "in" test are modelled
directly on the character list of a String, with structural recursion, so
that every handler is evaluable by the kernel. -/

/-- Python `s.strip()`: drop whitespace from both ends. -/
def pyStrip (s : String) : String :=
  ⟨((s.data.dropWhile Char.isWhitespace).reverse.dropWhile Char.isWhitespace).reverse⟩

/-- Python `s.lower()`. -/
def lowerStr (s : String) : String := ⟨s.data.map Char.toLower⟩

/-- Python `s.rsplit(sep, 1)[1]` for a one-character separator that occurs
in s: the characters after the last occurrence. -/
def afterLastDot (s : String) : String :=
  ⟨(s.data.reverse.takeWhile (fun c => !(c == '.'))).reverse⟩

/-- Python `s.split(sep)` for a one-character separator, on char lists. -/
def splitChars (c : Char) : List Char → List (List Char)
  | [] => [[]]
  | x :: xs =>
    match splitChars c xs with
    | [] => if x == c then [[], []] else [[x]]
    | seg :: rest => if x == c then [] :: seg :: rest else (x :: seg) :: rest

/-- Does the string start with the path separator (os.path.isabs)? -/
def startsSlash (s : String) : Bool :=
  match s.data with
  | [] => false
  | c :: _ => c == '/'

/-! ### Path arithmetic for the upload directory.

`os.path.join(UPLOAD_FOLDER, name)` and werkzeug's safe_join both resolve a
relative name against the directory; we model a relative path as the list of
its nonempty segments after posixpath.normpath-style normalization:
"" and "." segments vanish, ".." pops a preceding real segment, and unmatched
".." segments pile up at the front of the result. -/

/-- One step of posixpath.normpath over a segment, on a reversed stack
(head of the stack is the most recent surviving segment). -/
def norm_step (stack : List String) (seg : String) : List String :=
  if seg = "" ∨ seg = "." then stack
  else if seg = ".." then
    match stack with
    | [] => [".."]
    | top :: rest => if top = ".." then ".." :: top :: rest else rest
  else seg :: stack

/-- posixpath.normpath of a relative name, as the list of its segments. -/
def normSegs (s : String) : List String :=
  (((splitChars '/' s.data).map (fun l => String.mk l)).foldl norm_step []).reverse

/-- werkzeug.utils.safe_join restricted to one filename: normalize it, then
refuse absolute names and names whose normal form starts with "..";
otherwise the name resolves to a path under the directory. -/
def safe_join (filename : String) : Option (List String) :=
  if startsSlash filename ∨ (normSegs filename).headD "" = ".." then none
  else some (normSegs filename)

/-! ### Attachment helpers (src/app.py lines 59-72) -/

/-- `allowed_file` (lines 59-63): the part after the last "." must be an
allowed extension (lowercased); a name with no "." is refused. -/
def allowed_file (filename : String) : Bool :=
  if !(filename.data.contains '.') then false
  else ALLOWED_EXTENSIONS.contains (lowerStr (afterLastDot filename))

/-- The body of the loop `for f in files[:MAX_ATTACHMENTS]` in
`save_attachments`: a file is stored when its name is nonempty and its
extension allowed; each stored file consumes one fresh uuid token.
A file is represented by its client-supplied filename. -/
def saveLoop (gen : Nat → String → String) (tok : Nat) : List String → List String
  | [] => []
  | f :: rest =>
    if (f != "") && allowed_file f then gen tok f :: saveLoop gen (tok + 1) rest
    else saveLoop gen tok rest

/-- `save_attachments` (lines 65-72): only the first MAX_ATTACHMENTS entries
of the supplied batch are considered at all. Returns the stored names. -/
def save_attachments (gen : Nat → String → String) (tok : Nat) (files : List String) :
    List String :=
  saveLoop gen tok (files.take MAX_ATTACHMENTS)

/-! ### Request parsing (src/app.py lines 86-94) -/

/-- Python `(x or d)` on an optional form field: a missing or empty string
falls back to the default. -/
def py_or (x : Option String) (d : String) : String :=
  match x with
  | none => d
  | some s => if s = "" then d else s

/-- `(data.get(name) or default).strip()`, the parse of one form field. -/
def parseField (x : Option String) (d : String) : String := pyStrip (py_or x d)

/-- A POST /issues request: the form fields (absent field = none) and the
filenames of the uploaded `attachments` parts. -/
structure CreateReq where
  track : Option String
  status : Option String
  summary : Option String
  description : Option String
  raised_by : Option String
  assignee : Option String
  scenario_id : Option String
  step_no : Option String
  files : List String
  deriving DecidableEq

def reqTrack (req : CreateReq) : String := parseField req.track ""

def reqStatus (req : CreateReq) : String := parseField req.status "Open"

def reqSummary (req : CreateReq) : String := parseField req.summary ""

def reqDescription (req : CreateReq) : String := parseField req.description ""

def reqRaisedBy (req : CreateReq) : String := parseField req.raised_by ""

def reqAssignee (req : CreateReq) : String := parseField req.assignee ""

def reqScenarioId (req : CreateReq) : String := parseField req.scenario_id ""

def reqStepNo (req : CreateReq) : String := parseField req.step_no ""

/-- The Issue row built at line 109-119 of add_issue. -/
def mkIssue (i : Nat) (req : CreateReq) (filenames : List String) (now : Nat) : Issue :=
  { id := i,
    track := reqTrack req,
    summary := reqSummary req,
    description := reqDescription req,
    attachments := filenames,
    raised_by := reqRaisedBy req,
    assignee := reqAssignee req,
    status := reqStatus req,
    scenario_id := reqScenarioId req,
    step_no := reqStepNo req,
    created_at := now }

/-! ### Handlers -/

/-- POST /issues — `add_issue` (src/app.py lines 84-122).
Validations run in source order, each returning 400 with the source's
message before any file is written or row inserted; on success files are
saved (consuming uuid tokens), the row is appended with the next id, and
the created issue is returned with 201. -/
def add_issue (gen : Nat → String → String) (now : Nat) (st : AppState)
    (req : CreateReq) : AppState × Resp :=
  if reqTrack req ∉ ALLOWED_TRACKS then (st, .badRequest "Invalid track")
  else if reqStatus req ∉ ALLOWED_STATUS then (st, .badRequest "Invalid status")
  else if reqSummary req = "" ∨ (reqSummary req).length > 250 then
    (st, .badRequest "Summary is required and must be ≤ 250 chars")
  else if req.files.length > MAX_ATTACHMENTS then
    (st, .badRequest "Max 5 attachments allowed")
  else
    let filenames := save_attachments gen st.nextTok req.files
    let issue := mkIssue st.nextId req filenames now
    ({ issues := st.issues ++ [issue],
       nextId := st.nextId + 1,
       store := st.store ++ filenames.map normSegs,
       nextTok := st.nextTok + filenames.length },
     .created issue)

/-- A PATCH /issues/id request body plus uploaded files. -/
structure UpdateReq where
  track : Option String
  summary : Option String
  description : Option String
  raised_by : Option String
  assignee : Option String
  status : Option String
  scenario_id : Option String
  step_no : Option String
  files : List String
  deriving DecidableEq

/-- `setattr(issue, field, (data[field] or "").strip())` for one field:
an absent field leaves the current value. -/
def applyField (cur : String) (v : Option String) : String :=
  match v with
  | none => cur
  | some s => pyStrip (py_or (some s) "")

/-- The field loop of update_issue (lines 129-133) applied to a row.
Only the eight listed fields are ever touched; id, attachments and
created_at are not in the list. -/
def applyFields (iss : Issue) (req : UpdateReq) : Issue :=
  { iss with
    track := applyField iss.track req.track,
    summary := applyField iss.summary req.summary,
    description := applyField iss.description req.description,
    raised_by := applyField iss.raised_by req.raised_by,
    assignee := applyField iss.assignee req.assignee,
    status := applyField iss.status req.status,
    scenario_id := applyField iss.scenario_id req.scenario_id,
    step_no := applyField iss.step_no req.step_no }

/-- `data[field] not in ALLOWED_STATUS` at line 131: the raw supplied status
(before strip) must be in the allowed set when the field is present. -/
def invalid_status (req : UpdateReq) : Bool :=
  match req.status with
  | some v => !(ALLOWED_STATUS.contains v)
  | none => false

/-- PATCH /issues/id — `update_issue` (src/app.py lines 124-141).
404 when the id is unknown; 400 "Invalid status" when a status field is
supplied outside ALLOWED_STATUS (the early return precedes commit, so the
persisted row is untouched even though earlier loop iterations mutated the
in-memory object); otherwise the supplied fields are assigned trimmed, and
when files were uploaded their stored names are appended (no count check
here: save_attachments itself looks only at the first 5). -/
def update_issue (gen : Nat → String → String) (st : AppState) (issue_id : Nat)
    (req : UpdateReq) : AppState × Resp :=
  match st.issues.find? (fun i => i.id == issue_id) with
  | none => (st, .notFound)
  | some iss =>
    if invalid_status req then (st, .badRequest "Invalid status")
    else
      let base := applyFields iss req
      if req.files.isEmpty then
        ({ st with issues := st.issues.map (fun i => if i.id == issue_id then base else i) },
         .issueJson base)
      else
        let saved := save_attachments gen st.nextTok req.files
        let iss' := { base with attachments := base.attachments ++ saved }
        ({ st with
           issues := st.issues.map (fun i => if i.id == issue_id then iss' else i),
           store := st.store ++ saved.map normSegs,
           nextTok := st.nextTok + saved.length },
         .issueJson iss')

/-- DELETE /issues/id — `delete_issue` (src/app.py lines 143-154).
404 when unknown; otherwise every filename in the row's attachment list is
removed from the upload directory (os.remove resolves the relative name;
FileNotFoundError is swallowed, so an absent file is tolerated) and the row
is deleted. -/
def delete_issue (st : AppState) (issue_id : Nat) : AppState × Resp :=
  match st.issues.find? (fun i => i.id == issue_id) with
  | none => (st, .notFound)
  | some iss =>
    ({ st with
       issues := st.issues.filter (fun i => !(i.id == issue_id)),
       store := st.store.filter (fun p => !((iss.attachments.map normSegs).contains p)) },
     .deletedMsg)

/-- DELETE /issues/id/attachments/filename — `delete_attachment`
(src/app.py lines 156-168). When the filename is in the row's list, its
first occurrence is removed (`list.remove`), the row is persisted and the
file best-effort deleted; otherwise the unchanged row is returned. -/
def delete_attachment (st : AppState) (issue_id : Nat) (filename : String) :
    AppState × Resp :=
  match st.issues.find? (fun i => i.id == issue_id) with
  | none => (st, .notFound)
  | some iss =>
    if filename ∈ iss.attachments then
      let iss' := { iss with attachments := iss.attachments.erase filename }
      ({ st with
         issues := st.issues.map (fun i => if i.id == issue_id then iss' else i),
         store := st.store.filter (fun p => !(p == normSegs filename)) },
       .issueJson iss')
    else (st, .issueJson iss)

/-- GET /uploads/filename — `uploaded_file` (src/app.py lines 170-175).
The route uses the `path` converter, so the name may contain "/" and is
resolved against the upload directory; `send_from_directory` (safe_join)
refuses any name escaping the directory, and a resolvable name whose file
is absent gives 404. Returns the served path, or none for a 404. -/
def uploaded_file (dir : List (List String)) (filename : String) :
    Option (List String) :=
  match safe_join filename with
  | none => none
  | some p => if p ∈ dir then some p else none

/-! ### Export (src/app.py lines 177-193) -/

/-- Keys of `to_dict` (lines 40-53), in dict order: these become the
DataFrame's columns when at least one row exists. -/
def issueFields : List String :=
  ["id", "track", "summary", "description", "attachments", "raised_by",
   "assignee", "status", "scenario_id", "step_no", "created_at"]

/-- One spreadsheet row: `to_dict` with the attachment list flattened by
`", ".join(...)` (line 183); created_at rendered `isoformat() + "Z"`. -/
def rowOf (i : Issue) : List String :=
  [toString i.id, i.track, i.summary, i.description,
   String.intercalate ", " i.attachments,
   i.raised_by, i.assignee, i.status, i.scenario_id, i.step_no,
   toString i.created_at ++ "Z"]

/-- `Issue.query.order_by(Issue.id.desc())`: stable sort, largest id first. -/
def insertDesc (i : Issue) : List Issue → List Issue
  | [] => [i]
  | j :: rest => if i.id ≤ j.id then j :: insertDesc i rest else i :: j :: rest

def sortByIdDesc (l : List Issue) : List Issue := l.foldr insertDesc []

/-- The worksheet written by `df.to_excel(writer, index=False,
sheet_name="Issues")`: its name, its header row, and its data rows. -/
structure Sheet where
  name : String
  header : List String
  rows : List (List String)
  deriving DecidableEq

/-- GET /issues/download — `download_issues` (lines 177-193).
`pd.DataFrame(data)` takes its columns from the records' keys; for an empty
record list the DataFrame has no columns at all, and `to_excel` then writes
no header row: the "Issues" sheet is entirely empty. -/
def download_issues (st : AppState) : Sheet :=
  let ds := sortByIdDesc st.issues
  { name := "Issues",
    header := if ds.isEmpty then [] else issueFields,
    rows := ds.map rowOf }

/-! ### Reachability through the HTTP API -/

/-- One mutating API call. Error responses leave the state unchanged, so
the corresponding steps are identity steps; including them is harmless. -/
inductive Step (gen : Nat → String → String) : AppState → AppState → Prop
  | create (st : AppState) (now : Nat) (req : CreateReq) :
      Step gen st (add_issue gen now st req).1
  | update (st : AppState) (issue_id : Nat) (req : UpdateReq) :
      Step gen st (update_issue gen st issue_id req).1
  | delete (st : AppState) (issue_id : Nat) :
      Step gen st (delete_issue st issue_id).1
  | detach (st : AppState) (issue_id : Nat) (filename : String) :
      Step gen st (delete_attachment st issue_id filename).1

/-- States reachable from the empty system by API calls. -/
def Reachable (gen : Nat → String → String) (st : AppState) : Prop :=
  Relation.ReflTransGen (Step gen) initState st

/-- Like Step, but partial updates never supply a `track` field. -/
inductive StepNT (gen : Nat → String → String) : AppState → AppState → Prop
  | create (st : AppState) (now : Nat) (req : CreateReq) :
      StepNT gen st (add_issue gen now st req).1
  | update (st : AppState) (issue_id : Nat) (req : UpdateReq)
      (hnt : req.track = none) :
      StepNT gen st (update_issue gen st issue_id req).1
  | delete (st : AppState) (issue_id : Nat) :
      StepNT gen st (delete_issue st issue_id).1
  | detach (st : AppState) (issue_id : Nat) (filename : String) :
      StepNT gen st (delete_attachment st issue_id filename).1

/-- States reachable when no update ever carries a track field. -/
def ReachableNT (gen : Nat → String → String) (st : AppState) : Prop :=
  Relation.ReflTransGen (StepNT gen) initState st

/-- A concrete stored-name generator standing in for
`uuid.uuid4().hex + "_" + secure_filename(name)`. -/
def gen0 (tok : Nat) (name : String) : String := toString tok ++ "_" ++ name

/-- The spec's track invariant: every stored issue carries an allowed track. -/
def TrackInv (st : AppState) : Prop :=
  ∀ iss ∈ st.issues, iss.track ∈ ALLOWED_TRACKS

/-- A path segment that names an entry of its directory: not empty, not the
current directory, not the parent directory. -/
def IsSeg (s : String) : Prop := s ≠ "" ∧ s ≠ "." ∧ s ≠ ".."

/-- Shape invariant of the normpath stack: real segments on top of a run of
unmatched ".." markers. -/
def Stacked (l : List String) : Prop :=
  ∃ real k, l = real ++ List.replicate k ".." ∧ ∀ s ∈ real, IsSeg s

/-! ### Concrete data for counterexamples and witnesses -/

/-- A well-formed create request: the spec's sample issue. -/
def reqAP : CreateReq :=
  { track := some "AP", status := none, summary := some "Login fails",
    description := none, raised_by := none, assignee := none,
    scenario_id := none, step_no := none, files := [] }

/-- An update that sets `track` to a value outside ALLOWED_TRACKS. -/
def updBogus : UpdateReq :=
  { track := some "QA", summary := none, description := none, raised_by := none,
    assignee := none, status := none, scenario_id := none, step_no := none,
    files := [] }

/-- The state after creating reqAP and then patching its track to "QA". -/
def c1State : AppState :=
  (update_issue gen0 (add_issue gen0 0 initState reqAP).1 1 updBogus).1

/-- The row stored in c1State: its track is no longer an allowed value. -/
def c1Issue : Issue :=
  { id := 1, track := "QA", summary := "Login fails", description := "",
    attachments := [], raised_by := "", assignee := "", status := "Open",
    scenario_id := "", step_no := "", created_at := 0 }

/-- The state after the single create reqAP. -/
def w1State : AppState := (add_issue gen0 0 initState reqAP).1

/-- The row stored in w1State. -/
def w1Issue : Issue :=
  { id := 1, track := "AP", summary := "Login fails", description := "",
    attachments := [], raised_by := "", assignee := "", status := "Open",
    scenario_id := "", step_no := "", created_at := 0 }

/-- A valid create request carrying six attachment files. -/
def c2req : CreateReq :=
  { track := some "AP", status := none, summary := some "Login fails",
    description := none, raised_by := none, assignee := none,
    scenario_id := none, step_no := none,
    files := ["a.png", "b.png", "c.png", "d.png", "e.png", "f.png"] }

/-- A valid create request carrying seven attachment files. -/
def c3req : CreateReq :=
  { track := some "RP", status := some "Fixed", summary := some "Crash on save",
    description := none, raised_by := none, assignee := none,
    scenario_id := none, step_no := none,
    files := ["a.png", "b.png", "c.png", "d.png", "e.png", "f.png", "g.pdf"] }

/-- A create request with a track outside the allowed set and a file. -/
def c5req : CreateReq :=
  { track := some "Rogue", status := none, summary := some "Broken",
    description := none, raised_by := none, assignee := none,
    scenario_id := none, step_no := none, files := ["a.png"] }

/-- A stored row with one attachment, used as PATCH target. -/
def c4Issue : Issue :=
  { id := 1, track := "AP", summary := "Login fails", description := "",
    attachments := ["0_a.png"], raised_by := "", assignee := "", status := "Open",
    scenario_id := "", step_no := "", created_at := 0 }

def c4State : AppState :=
  { issues := [c4Issue], nextId := 2, store := [["0_a.png"]], nextTok := 1 }

/-- The spec's scenario: PATCH with status "InProgress" (and another field). -/
def c4req : UpdateReq :=
  { track := none, summary := some "changed", description := none,
    raised_by := none, assignee := none, status := some "InProgress",
    scenario_id := none, step_no := none, files := [] }

/-- PATCH that supplies only `assignee`. -/
def c6req : UpdateReq :=
  { track := none, summary := none, description := none, raised_by := none,
    assignee := some "alice", status := none, scenario_id := none,
    step_no := none, files := [] }

/-- The row c4Issue after the assignee-only update. -/
def c6Out : Issue :=
  { id := 1, track := "AP", summary := "Login fails", description := "",
    attachments := ["0_a.png"], raised_by := "", assignee := "alice",
    status := "Open", scenario_id := "", step_no := "", created_at := 0 }

/-- A stored row with two attachments, used as DELETE target. -/
def c7Issue : Issue :=
  { id := 1, track := "LI", summary := "Report broken", description := "",
    attachments := ["img.png", "doc.pdf"], raised_by := "", assignee := "",
    status := "Open", scenario_id := "", step_no := "", created_at := 0 }

def c7State : AppState :=
  { issues := [c7Issue], nextId := 2, store := [["img.png"], ["doc.pdf"]],
    nextTok := 2 }

/-- Seven upload filenames of which six are acceptable, with one refused
name inside the first five positions. -/
def c10files : List String :=
  ["a.png", "bad.txt", "b.png", "c.png", "d.png", "e.png", "f.png"]

/-! ## Theorems -/

/-- C5: a create request whose (parsed) track value is outside the allowed
track set is answered 400 "Invalid track" with the state untouched: no row
and no file is persisted, whatever files the request carried. The track
check is the first validation in add_issue, before any file handling. -/
theorem create_invalid_track_no_effect (gen : Nat → String → String) (now : Nat)
    (st : AppState) (req : CreateReq) (h : reqTrack req ∉ ALLOWED_TRACKS) :
    add_issue gen now st req = (st, Resp.badRequest "Invalid track") := by
  unfold add_issue
  rw [if_pos h]

theorem create_invalid_track_no_effect_witness :
    add_issue gen0 0 initState c5req = (initState, Resp.badRequest "Invalid track") :=
  create_invalid_track_no_effect gen0 0 initState c5req (by decide)

/-- C2 counterexample: a create request with valid track, status and summary
but six attachment files does NOT succeed: add_issue answers 400
"Max 5 attachments allowed" and persists neither a row nor a file, refuting
the claim that such a request succeeds with at most five stored names. -/
theorem create_six_files_cex :
    add_issue gen0 0 initState c2req =
      (initState, Resp.badRequest "Max 5 attachments allowed") := by decide

/-- C2 amended: a create request with valid track, status and summary that
supplies six attachment files fails with 400 "Max 5 attachments allowed",
and no issue row or attachment file is persisted (the count check at
line 104 precedes save_attachments). -/
theorem create_six_files_rejected (gen : Nat → String → String) (now : Nat)
    (st : AppState) (req : CreateReq)
    (ht : reqTrack req ∈ ALLOWED_TRACKS) (hs : reqStatus req ∈ ALLOWED_STATUS)
    (hne : reqSummary req ≠ "") (hlen : (reqSummary req).length ≤ 250)
    (hf : req.files.length = 6) :
    add_issue gen now st req = (st, Resp.badRequest "Max 5 attachments allowed") := by
  unfold add_issue
  rw [if_neg (not_not_intro ht), if_neg (not_not_intro hs), if_neg, if_pos]
  · rw [hf]; decide
  · push_neg
    exact ⟨hne, by omega⟩

theorem create_six_files_rejected_witness :
    add_issue gen0 7 initState c2req =
      (initState, Resp.badRequest "Max 5 attachments allowed") :=
  create_six_files_rejected gen0 7 initState c2req (by decide) (by decide)
    (by decide) (by decide) (by decide)

/-- C3: any create request with more than MAX_ATTACHMENTS files is refused
with a 400 validation error and the state is untouched — the length check
(line 104) runs before save_attachments, so no file is written and no row
inserted. (When an earlier field validation also fails, that earlier 400
fires first; either way the response is a 400 and nothing is persisted.) -/
theorem create_overflow_rejected (gen : Nat → String → String) (now : Nat)
    (st : AppState) (req : CreateReq) (h : req.files.length > MAX_ATTACHMENTS) :
    (add_issue gen now st req).1 = st ∧
      ∃ m, (add_issue gen now st req).2 = Resp.badRequest m := by
  unfold add_issue
  split
  · exact ⟨rfl, _, rfl⟩
  · split
    · exact ⟨rfl, _, rfl⟩
    · split
      · exact ⟨rfl, _, rfl⟩
      · exact ⟨rfl, _, rfl⟩

theorem create_overflow_rejected_witness :
    (add_issue gen0 0 initState c3req).1 = initState ∧
      (add_issue gen0 0 initState c3req).2 =
        Resp.badRequest "Max 5 attachments allowed" :=
  ⟨(create_overflow_rejected gen0 0 initState c3req (by decide)).1, by decide⟩

/-- Replacing the row that find? locates keeps it the row that find?
locates: the row-update pattern of update_issue. -/
theorem find?_map_replace (l : List Issue) (issue_id : Nat) (iss new : Issue)
    (hfind : l.find? (fun i => i.id == issue_id) = some iss)
    (hid : new.id = iss.id) :
    (l.map (fun i => if i.id == issue_id then new else i)).find?
      (fun i => i.id == issue_id) = some new := by
  have hp : (iss.id == issue_id) = true := by
    have h := List.find?_some hfind
    simpa using h
  induction l with
  | nil => exact absurd hfind (by simp)
  | cons a t ih =>
    cases ha : (a.id == issue_id) with
    | true =>
      simp only [List.map_cons, if_pos ha, List.find?_cons, hid, hp]
    | false =>
      simp only [List.find?_cons, ha] at hfind
      simp only [List.map_cons, List.find?_cons, ha, Bool.false_eq_true, if_false]
      exact ih hfind

/-- C4: a PATCH on an existing issue whose supplied status value lies
outside ALLOWED_STATUS is answered 400 "Invalid status" and the persisted
state — every row, every field, every attachment list, every file — is
exactly as before: the early return precedes the commit, and the
uncommitted in-memory mutations made by earlier loop iterations are
discarded at request teardown. -/
theorem update_invalid_status_unchanged (gen : Nat → String → String)
    (st : AppState) (issue_id : Nat) (req : UpdateReq) (iss : Issue) (v : String)
    (hfind : st.issues.find? (fun i => i.id == issue_id) = some iss)
    (hv : req.status = some v) (hbad : v ∉ ALLOWED_STATUS) :
    update_issue gen st issue_id req = (st, Resp.badRequest "Invalid status") := by
  have hb : invalid_status req = true := by
    simp only [invalid_status, hv, Bool.not_eq_true']
    simpa using hbad
  unfold update_issue
  rw [hfind]
  simp only [hb, if_true]

theorem update_invalid_status_unchanged_witness :
    update_issue gen0 c4State 1 c4req = (c4State, Resp.badRequest "Invalid status") :=
  update_invalid_status_unchanged gen0 c4State 1 c4req c4Issue "InProgress"
    (by decide) rfl (by decide)

/-- C6: a PATCH with no files on an existing issue leaves every field the
request does not supply untouched in the persisted row: each absent form
field keeps its value, and the attachment list, created_at and id are
never in the update loop at all. -/
theorem update_frame_unsupplied_fields (gen : Nat → String → String)
    (st : AppState) (issue_id : Nat) (req : UpdateReq) (iss : Issue)
    (st' : AppState) (iss' : Issue)
    (hfind : st.issues.find? (fun i => i.id == issue_id) = some iss)
    (hfiles : req.files = [])
    (hres : update_issue gen st issue_id req = (st', Resp.issueJson iss')) :
    (req.track = none → iss'.track = iss.track) ∧
    (req.summary = none → iss'.summary = iss.summary) ∧
    (req.description = none → iss'.description = iss.description) ∧
    (req.raised_by = none → iss'.raised_by = iss.raised_by) ∧
    (req.assignee = none → iss'.assignee = iss.assignee) ∧
    (req.status = none → iss'.status = iss.status) ∧
    (req.scenario_id = none → iss'.scenario_id = iss.scenario_id) ∧
    (req.step_no = none → iss'.step_no = iss.step_no) ∧
    iss'.attachments = iss.attachments ∧
    iss'.created_at = iss.created_at ∧
    iss'.id = iss.id ∧
    st'.issues.find? (fun i => i.id == issue_id) = some iss' := by
  unfold update_issue at hres
  rw [hfind] at hres
  cases hbv : invalid_status req with
  | true =>
    simp only [hbv, if_true] at hres
    exact absurd hres (by simp)
  | false =>
    simp only [hbv, Bool.false_eq_true, if_false, hfiles, List.isEmpty_nil,
      if_true] at hres
    rw [Prod.mk.injEq, Resp.issueJson.injEq] at hres
    obtain ⟨hst, hiss⟩ := hres
    subst hiss
    subst hst
    refine ⟨?_, ?_, ?_, ?_, ?_, ?_, ?_, ?_, rfl, rfl, rfl, ?_⟩
    · intro h; simp [applyFields, applyField, h]
    · intro h; simp [applyFields, applyField, h]
    · intro h; simp [applyFields, applyField, h]
    · intro h; simp [applyFields, applyField, h]
    · intro h; simp [applyFields, applyField, h]
    · intro h; simp [applyFields, applyField, h]
    · intro h; simp [applyFields, applyField, h]
    · intro h; simp [applyFields, applyField, h]
    · exact find?_map_replace st.issues issue_id iss (applyFields iss req) hfind rfl

theorem update_frame_unsupplied_fields_witness :
    c6Out.track = c4Issue.track ∧ c6Out.summary = c4Issue.summary ∧
    c6Out.status = c4Issue.status ∧ c6Out.attachments = c4Issue.attachments ∧
    c6Out.created_at = c4Issue.created_at := by
  have h := update_frame_unsupplied_fields gen0 c4State 1 c6req c4Issue
    ((update_issue gen0 c4State 1 c6req).1) c6Out (by decide) rfl (by decide)
  exact ⟨h.1 rfl, h.2.1 rfl, h.2.2.2.2.2.1 rfl, h.2.2.2.2.2.2.2.2.1,
    h.2.2.2.2.2.2.2.2.2.1⟩

/-- C7: deleting an existing issue removes every filename of its attachment
list from the upload directory (an already-absent file is tolerated — the
removal is a best-effort filter), deletes the row, and afterwards
GET /uploads of any of those filenames is a 404. -/
theorem delete_removes_attachments (st : AppState) (issue_id : Nat) (iss : Issue)
    (hfind : st.issues.find? (fun i => i.id == issue_id) = some iss) :
    (delete_issue st issue_id).2 = Resp.deletedMsg ∧
    (∀ fn ∈ iss.attachments,
      uploaded_file (delete_issue st issue_id).1.store fn = none) ∧
    (delete_issue st issue_id).1.issues.find? (fun i => i.id == issue_id) = none := by
  have hred : delete_issue st issue_id =
      ({ st with
         issues := st.issues.filter (fun i => !(i.id == issue_id)),
         store := st.store.filter
           (fun p => !((iss.attachments.map normSegs).contains p)) },
       Resp.deletedMsg) := by
    unfold delete_issue
    rw [hfind]
  rw [hred]
  refine ⟨rfl, ?_, ?_⟩
  · intro fn hfn
    unfold uploaded_file
    cases hsj : safe_join fn with
    | none => rfl
    | some p =>
      have hp : p = normSegs fn := by
        unfold safe_join at hsj
        split at hsj
        · exact absurd hsj (by simp)
        · exact (Option.some.inj hsj).symm
      dsimp only
      rw [if_neg]
      intro hmem
      have h2 : (!((iss.attachments.map normSegs).contains p)) = true := by
        simpa using (List.mem_filter.mp hmem).2
      rw [hp] at h2
      exact absurd (List.elem_iff.mpr (List.mem_map_of_mem normSegs hfn))
        (by simpa using h2)
  · rw [List.find?_eq_none]
    intro i hi
    simpa using (List.mem_filter.mp hi).2

theorem delete_removes_attachments_witness :
    (delete_issue c7State 1).2 = Resp.deletedMsg ∧
    uploaded_file (delete_issue c7State 1).1.store "img.png" = none ∧
    uploaded_file (delete_issue c7State 1).1.store "doc.pdf" = none := by
  have h := delete_removes_attachments c7State 1 c7Issue (by decide)
  exact ⟨h.1, h.2.1 "img.png" (by decide), h.2.1 "doc.pdf" (by decide)⟩

/-- C8 counterexample: with zero issues the exported "Issues" worksheet does
NOT contain the header row of field names — pd.DataFrame of an empty record
list has no columns, so to_excel writes an entirely empty sheet. -/
theorem empty_export_cex :
    initState.issues = [] ∧ (download_issues initState).header = [] ∧
    (download_issues initState).header ≠ issueFields :=
  ⟨rfl, rfl, by decide⟩

/-- C8 amended: when the issue table is empty, GET /issues/download returns
a workbook whose sole "Issues" worksheet is entirely empty: no header row
and no data rows (pd.DataFrame([]) has no columns, so to_excel writes
nothing to the sheet). -/
theorem empty_export_empty_sheet (st : AppState) (h : st.issues = []) :
    download_issues st = { name := "Issues", header := [], rows := [] } := by
  unfold download_issues
  rw [h]
  rfl

theorem empty_export_empty_sheet_witness :
    download_issues initState = { name := "Issues", header := [], rows := [] } :=
  empty_export_empty_sheet initState rfl

/-- saveLoop never stores more files than it is handed. -/
theorem saveLoop_length_le (gen : Nat → String → String) (files : List String) :
    ∀ tok, (saveLoop gen tok files).length ≤ files.length := by
  induction files with
  | nil => intro tok; simp [saveLoop]
  | cons f rest ih =>
    intro tok
    unfold saveLoop
    split
    · simpa using Nat.succ_le_succ (ih (tok + 1))
    · exact Nat.le_succ_of_le (ih tok)

/-- C10: save_attachments looks only at the first MAX_ATTACHMENTS entries
of the supplied batch (`files[:MAX_ATTACHMENTS]`), so a file at position 6
or later is never saved, at most 5 names are ever stored per call — and
when a refused name sits among the first five, fewer than five files are
stored even though five or more acceptable files were supplied, as the
concrete batch c10files shows (six acceptable names, four stored). -/
theorem save_attachments_first_five :
    (∀ gen tok files, save_attachments gen tok files =
        save_attachments gen tok (files.take MAX_ATTACHMENTS)) ∧
    (∀ gen tok files,
        (save_attachments gen tok files).length ≤ MAX_ATTACHMENTS) ∧
    (save_attachments gen0 0 c10files).length = 4 ∧
    (c10files.filter (fun f => (f != "") && allowed_file f)).length = 6 := by
  refine ⟨?_, ?_, by decide, by decide⟩
  · intro gen tok files
    unfold save_attachments
    rw [List.take_take, Nat.min_self]
  · intro gen tok files
    exact le_trans (saveLoop_length_le gen (files.take MAX_ATTACHMENTS) tok)
      (List.length_take_le MAX_ATTACHMENTS files)

/-- The empty normpath stack is well-shaped. -/
theorem stacked_nil : Stacked [] := ⟨[], 0, rfl, by simp⟩

/-- One normpath step keeps the stack well-shaped: real segments on top of
a run of unmatched ".." markers. -/
theorem stacked_norm_step (l : List String) (seg : String) (h : Stacked l) :
    Stacked (norm_step l seg) := by
  obtain ⟨real, k, rfl, hreal⟩ := h
  unfold norm_step
  by_cases h0 : seg = "" ∨ seg = "."
  · rw [if_pos h0]
    exact ⟨real, k, rfl, hreal⟩
  · rw [if_neg h0]
    by_cases h2 : seg = ".."
    · rw [if_pos h2]
      cases real with
      | nil =>
        rw [List.nil_append]
        cases k with
        | zero => exact ⟨[], 1, rfl, by simp⟩
        | succ j =>
          rw [List.replicate_succ]
          simp only []
          rw [if_pos trivial]
          exact ⟨[], j + 2, by simp [List.replicate_succ], by simp⟩
      | cons r rs =>
        rw [List.cons_append]
        simp only []
        rw [if_neg (hreal r (by simp)).2.2]
        exact ⟨rs, k, rfl, fun s hs => hreal s (List.mem_cons_of_mem r hs)⟩
    · rw [if_neg h2]
      refine ⟨seg :: real, k, rfl, ?_⟩
      intro s hs
      rcases List.mem_cons.mp hs with rfl | hs
      · push_neg at h0
        exact ⟨h0.1, h0.2, h2⟩
      · exact hreal s hs

theorem stacked_foldl (segs : List String) :
    ∀ l, Stacked l → Stacked (List.foldl norm_step l segs) := by
  induction segs with
  | nil => exact fun l h => h
  | cons a t ih => exact fun l h => ih _ (stacked_norm_step l a h)

/-- When the normal form of a name does not begin with "..", it contains no
"", "." or ".." segment at all: it denotes a genuine descendant path. -/
theorem normSegs_good (f : String) (h : (normSegs f).headD "" ≠ "..") :
    ∀ s ∈ normSegs f, s ≠ "" ∧ s ≠ "." ∧ s ≠ ".." := by
  obtain ⟨real, k, heq, hreal⟩ :=
    stacked_foldl ((splitChars '/' f.data).map (fun l => String.mk l)) [] stacked_nil
  have hns : normSegs f = (real ++ List.replicate k "..").reverse := by
    unfold normSegs
    rw [heq]
  cases k with
  | zero =>
    rw [hns]
    simp only [List.replicate, List.append_nil]
    intro s hs
    exact hreal s (List.mem_reverse.mp hs)
  | succ j =>
    exfalso
    apply h
    rw [hns, List.reverse_append, List.reverse_replicate, List.replicate_succ]
    simp

/-- C9 amended: the retrieval route resolves the supplied name against the
upload directory and the name may well denote a nested path (see the
counterexample), but any served path consists solely of genuine descendant
segments — never "", "." or ".." and never an absolute name — so no request
reads a file outside the upload directory; and a name whose resolved path
has no corresponding file is answered 404. -/
theorem uploads_no_escape :
    (∀ dir f p, uploaded_file dir f = some p →
      p ∈ dir ∧ ∀ s ∈ p, s ≠ "" ∧ s ≠ "." ∧ s ≠ "..") ∧
    (∀ dir f p, safe_join f = some p → p ∉ dir → uploaded_file dir f = none) := by
  constructor
  · intro dir f p h
    unfold uploaded_file at h
    cases hsj : safe_join f with
    | none => rw [hsj] at h; exact absurd h (by simp)
    | some q =>
      rw [hsj] at h
      dsimp only at h
      by_cases hq : q ∈ dir
      · rw [if_pos hq] at h
        obtain rfl : q = p := by simpa using h
        refine ⟨hq, ?_⟩
        unfold safe_join at hsj
        split at hsj
        · exact absurd hsj (by simp)
        · rename_i hg
          push_neg at hg
          obtain rfl : normSegs f = q := by simpa using hsj
          exact normSegs_good f hg.2
      · rw [if_neg hq] at h
        exact absurd h (by simp)
  · intro dir f p hsj hnot
    unfold uploaded_file
    rw [hsj]
    dsimp only
    rw [if_neg hnot]

theorem uploads_no_escape_witness :
    ["a.png"] ∈ [["a.png"]] ∧ ("a.png" ≠ "" ∧ "a.png" ≠ "." ∧ "a.png" ≠ "..") := by
  have h := uploads_no_escape.1 [["a.png"]] "a.png" ["a.png"] (by decide)
  exact ⟨h.1, h.2 "a.png" (by decide)⟩

/-- C9 counterexample: the name "sub/x.png" is not treated as a single path
segment — it resolves to the two-segment nested path ["sub", "x.png"] and,
when such a file exists under the upload directory, it is served. -/
theorem uploads_nested_path_cex :
    uploaded_file [["sub", "x.png"]] "sub/x.png" = some ["sub", "x.png"] ∧
    ["sub", "x.png"].length ≠ 1 := ⟨by decide, by decide⟩

/-- add_issue establishes the track invariant for the row it creates (the
track was validated) and keeps every existing row untouched. -/
theorem trackInv_add (gen : Nat → String → String) (now : Nat) (st : AppState)
    (req : CreateReq) (h : TrackInv st) : TrackInv (add_issue gen now st req).1 := by
  unfold add_issue
  split
  · exact h
  · rename_i h1
    split
    · exact h
    · split
      · exact h
      · split
        · exact h
        · dsimp only
          intro iss hm
          rw [List.mem_append] at hm
          rcases hm with hm | hm
          · exact h iss hm
          · rw [List.mem_singleton] at hm
            subst hm
            exact not_not.mp h1

/-- Replacing one row by a row with an allowed track keeps every row's
track allowed: the row-update pattern shared by update and detach. -/
theorem trackInv_map_replace (l : List Issue) (issue_id : Nat) (new : Issue)
    (h : ∀ i ∈ l, i.track ∈ ALLOWED_TRACKS)
    (hnew : new.track ∈ ALLOWED_TRACKS) :
    ∀ j ∈ l.map (fun i => if i.id == issue_id then new else i),
      j.track ∈ ALLOWED_TRACKS := by
  intro j hj
  obtain ⟨i, hi, rfl⟩ := List.mem_map.mp hj
  by_cases hid : (i.id == issue_id) = true
  · rw [if_pos hid]; exact hnew
  · rw [if_neg hid]; exact h i hi

/-- update_issue preserves the track invariant when the request carries no
track field: the replaced row keeps its old track. -/
theorem trackInv_update (gen : Nat → String → String) (st : AppState)
    (issue_id : Nat) (req : UpdateReq) (hnt : req.track = none)
    (h : TrackInv st) : TrackInv (update_issue gen st issue_id req).1 := by
  unfold update_issue
  cases hfind : st.issues.find? (fun i => i.id == issue_id) with
  | none => exact h
  | some iss =>
    dsimp only
    have hiss : iss ∈ st.issues := List.mem_of_find?_eq_some hfind
    have htr : (applyFields iss req).track ∈ ALLOWED_TRACKS := by
      have heq : (applyFields iss req).track = iss.track := by
        simp [applyFields, applyField, hnt]
      rw [heq]
      exact h iss hiss
    cases hbv : invalid_status req with
    | true => rw [if_pos rfl]; exact h
    | false =>
      rw [if_neg (by simp)]
      cases hfe : req.files.isEmpty with
      | true =>
        rw [if_pos rfl]
        exact trackInv_map_replace st.issues issue_id _ h htr
      | false =>
        rw [if_neg (by simp)]
        exact trackInv_map_replace st.issues issue_id _ h htr

/-- delete_issue preserves the track invariant: the surviving rows are a
sublist of the old table. -/
theorem trackInv_delete (st : AppState) (issue_id : Nat) (h : TrackInv st) :
    TrackInv (delete_issue st issue_id).1 := by
  unfold delete_issue
  cases hfind : st.issues.find? (fun i => i.id == issue_id) with
  | none => exact h
  | some iss =>
    intro j hj
    exact h j (List.mem_of_mem_filter hj)

/-- delete_attachment preserves the track invariant: only the attachment
list of the touched row changes. -/
theorem trackInv_detach (st : AppState) (issue_id : Nat) (filename : String)
    (h : TrackInv st) : TrackInv (delete_attachment st issue_id filename).1 := by
  unfold delete_attachment
  cases hfind : st.issues.find? (fun i => i.id == issue_id) with
  | none => exact h
  | some iss =>
    have hiss : iss ∈ st.issues := List.mem_of_find?_eq_some hfind
    dsimp only
    split
    · exact trackInv_map_replace st.issues issue_id _ h (h iss hiss)
    · exact h

/-- C1 amended: in every state reachable through create, delete and detach
operations and through partial updates that do not supply a track field,
the track of every stored issue lies in the allowed track set. (The claim
as stated over all updates is refuted by track_invariant_cex: update_issue
validates only status, so a PATCH may store an arbitrary track.) -/
theorem track_invariant_no_track_updates (gen : Nat → String → String)
    (st : AppState) (h : ReachableNT gen st) :
    ∀ iss ∈ st.issues, iss.track ∈ ALLOWED_TRACKS := by
  induction h with
  | refl => intro iss hm; exact absurd hm (by simp [initState])
  | tail hr hs ih =>
    cases hs with
    | create now req => exact trackInv_add gen now _ req ih
    | update issue_id req hnt => exact trackInv_update gen _ issue_id req hnt ih
    | delete issue_id => exact trackInv_delete _ issue_id ih
    | detach issue_id fn => exact trackInv_detach _ issue_id fn ih

theorem track_invariant_no_track_updates_witness :
    ReachableNT gen0 w1State ∧ w1Issue.track ∈ ALLOWED_TRACKS := by
  have hreach : ReachableNT gen0 w1State :=
    Relation.ReflTransGen.single (StepNT.create initState 0 reqAP)
  exact ⟨hreach,
    track_invariant_no_track_updates gen0 w1State hreach w1Issue (by decide)⟩

/-- C1 counterexample: the state reached by creating a valid issue and then
patching it with track "QA" is reachable through the HTTP API, yet stores a
row whose track is outside the allowed track set — update_issue (lines
129-133) validates status but never track. -/
theorem track_invariant_cex :
    Reachable gen0 c1State ∧ c1Issue ∈ c1State.issues ∧
    c1Issue.track ∉ ALLOWED_TRACKS := by
  refine ⟨?_, by decide, by decide⟩
  exact Relation.ReflTransGen.tail
    (Relation.ReflTransGen.single (Step.create initState 0 reqAP))
    (Step.update (add_issue gen0 0 initState reqAP).1 1 updBogus)

end BugTracker
